import Mathlib

/-!
Shallow embedding of the polling (fetch-incidents), mirroring
(get-remote-data / update-remote-system), transition (edit_status) and
HTTP-error-classification (Client.send_request) logic of the two XSOAR
integration adapters in this repository:

  * Packs/Jira/Integrations/JiraV2/JiraV2.py
  * Packs/McAfeeMVisionCASB/Integrations/McAfeeMVisionCASB/McAfeeMVisionCASB.py

Python dictionaries are embedded as structures holding exactly the fields the
modelled code reads; timestamps that the Python compares after `parse(...)`
are embedded as integers (only their order matters to the code under study);
the platform's persisted "last run" store is made explicit state that is
passed in and returned.
-/

/- ----------------------------------------------------------------- -/
/- Jira fetch_incidents (JiraV2.py lines 942-982)                    -/
/- ----------------------------------------------------------------- -/

/-- A Jira issue as read by `fetch_incidents`: only `id` (converted with
`int(...)` in the source) and `fields.created` are consulted. -/
structure JiraTicket where
  id : Nat
  created : String
deriving DecidableEq, Repr

/-- The Jira adapter's persisted cursor, written by
`demisto.setLastRun({'idOffset': ..., 'lastCreatedTime': ...})`. -/
structure JiraLastRun where
  idOffset : Nat
  lastCreatedTime : String
deriving DecidableEq, Repr

/-- The per-ticket loop of `fetch_incidents` (JiraV2.py lines 968-979).
`curr_id` is fixed to `int(id_offset)` before the loop; a ticket with
`ticket_id <= curr_id` is skipped (`continue`); otherwise the running
`id_offset` / `last_created_time` are advanced when `ticket_id > id_offset`,
and the ticket is emitted (the source wraps each emitted ticket with
`create_incident_from_ticket`, a one-to-one mapping; the embedding keeps the
ticket itself as the emitted record). -/
def jira_fetch_loop (curr_id : Nat) :
    List JiraTicket → Nat → String → List JiraTicket × Nat × String
  | [], id_offset, last_created_time => ([], id_offset, last_created_time)
  | t :: ts, id_offset, last_created_time =>
      if t.id ≤ curr_id then
        jira_fetch_loop curr_id ts id_offset last_created_time
      else
        let next_offset := if id_offset < t.id then t.id else id_offset
        let next_created := if id_offset < t.id then t.created else last_created_time
        let r := jira_fetch_loop curr_id ts next_offset next_created
        (t :: r.1, r.2)

/-- Jira `fetch_incidents` (JiraV2.py lines 942-982) given the cursor read
from the last-run store and the list of issues the remote query returned.
Returns the emitted incident records and the cursor written back with
`demisto.setLastRun`. -/
def jira_fetch_incidents (id_offset : Nat) (issues : List JiraTicket)
    (last_created_time : String) : List JiraTicket × JiraLastRun :=
  let r := jira_fetch_loop id_offset issues id_offset last_created_time
  (r.1, { idOffset := r.2.1, lastCreatedTime := r.2.2 })

/- ----------------------------------------------------------------- -/
/- CASB fetch_incidents (McAfeeMVisionCASB.py lines 117-151)         -/
/- ----------------------------------------------------------------- -/

/-- A CASB incident as read by `fetch_incidents`: only `incidentId` and
`timeModified` are consulted. -/
structure CasbIncident where
  incidentId : String
  timeModified : String
deriving DecidableEq, Repr

/-- The record appended to `xsoar_incidents` for a not-yet-seen incident
(McAfeeMVisionCASB.py lines 135-142). -/
structure CasbXsoarIncident where
  name : String
  occurred : String
  raw_json : CasbIncident
  dbotMirrorId : String
deriving DecidableEq, Repr

/-- The CASB adapter's persisted cursor: `start_time` and the seen-id set
`ids` (a Python `set`, embedded as a list whose membership is what matters). -/
structure CasbLastRun where
  start_time : String
  ids : List String
deriving DecidableEq, Repr

/-- The dictionary built for one emitted CASB incident
(McAfeeMVisionCASB.py lines 135-142). -/
def casb_incident_to_xsoar (inc : CasbIncident) : CasbXsoarIncident :=
  { name := "McAfee MVision CASB Incident " ++ inc.incidentId
    occurred := inc.timeModified
    raw_json := inc
    dbotMirrorId := inc.incidentId }

/-- The per-incident loop of CASB `fetch_incidents` (lines 129-144): an
incident whose `incidentId` is already in `ids` is skipped; otherwise it is
emitted and its id added to `ids`. -/
def casb_fetch_loop : List CasbIncident → List String →
    List CasbXsoarIncident × List String
  | [], ids => ([], ids)
  | inc :: rest, ids =>
      if inc.incidentId ∈ ids then
        casb_fetch_loop rest ids
      else
        let r := casb_fetch_loop rest (inc.incidentId :: ids)
        (casb_incident_to_xsoar inc :: r.1, r.2)

/-- CASB `fetch_incidents` (McAfeeMVisionCASB.py lines 117-151) given the
cursor read with `demisto.getLastRun()`, the incidents of the query response,
and the response's `responseInfo.nextStartTime`. When the response holds no
incidents the guard `if incidents := ...` fails and the last run is returned
unchanged with no emitted records; otherwise the de-dup loop runs and the new
cursor stores `nextStartTime` and the grown seen-id set. -/
def casb_fetch_incidents (last_run : CasbLastRun) (incidents : List CasbIncident)
    (nextStartTime : String) : CasbLastRun × List CasbXsoarIncident :=
  if incidents = [] then (last_run, [])
  else
    let r := casb_fetch_loop incidents last_run.ids
    ({ start_time := nextStartTime, ids := r.2 }, r.1)

/- ----------------------------------------------------------------- -/
/- Jira get_remote_data_command (JiraV2.py lines 1212-1293)          -/
/- ----------------------------------------------------------------- -/

/-- The close reason used for issues marked "Done" (JiraV2.py line 25). -/
def JIRA_RESOLVE_REASON : String := "Issue was marked as \"Done\""

/-- A Jira comment as read by `get_comments` (body and the parsed `updated`
timestamp, embedded as an integer). -/
structure JiraComment where
  body : String
  updated : Int
deriving DecidableEq, Repr

/-- A Jira attachment as read by `get_attachments` (filename and the parsed
`created` timestamp, embedded as an integer). -/
structure JiraAttachment where
  filename : String
  created : Int
deriving DecidableEq, Repr

/-- A Jira issue as read on the mirror-in path: its id, the parsed
`fields.updated` timestamp, `fields.status.name`, and its comments and
attachments. -/
structure JiraIssue where
  id : String
  updated : Int
  statusName : String
  comments : List JiraComment
  attachments : List JiraAttachment
deriving DecidableEq, Repr

/-- An entry of a `GetRemoteDataResponse`: the close directive built by
`handle_incoming_closing_incident` (a NOTE entry whose contents set
`dbotIncidentClose` together with the close reason), a comment NOTE entry, or
an attachment file result. -/
inductive MirrorEntry where
  | closeEntry (closeReason : String)
  | noteEntry (contents : String)
  | fileEntry (filename : String)
deriving DecidableEq, Repr

/-- The mirrored object returned by `get_remote_data_command`:
`incident_update` either stays the empty dict (`issueFields = none`) or holds
the issue's raw response, and in both cases carries the `in_mirror_error`
key. -/
structure MirroredObject where
  issueFields : Option JiraIssue
  in_mirror_error : String
deriving DecidableEq, Repr

/-- `handle_incoming_closing_incident` (JiraV2.py lines 1090-1108): for an
issue whose `fields.status.name` equals "Done" it returns the closing entry,
otherwise the empty (falsy) dict, embedded as `none`. -/
def handle_incoming_closing_incident (incident_data : JiraIssue) :
    Option MirrorEntry :=
  if incident_data.statusName = "Done" then
    some (MirrorEntry.closeEntry JIRA_RESOLVE_REASON)
  else
    none

/-- `get_incident_entries` (JiraV2.py lines 1044-1069) as called from
`get_remote_data_command` (comments and attachments requested, `only_new`
true): keeps the comments with `incident_modified_date < updated`
(`get_comments`, lines 1025-1041) and the attachments with
`incident_modified_date < created` (`get_attachments`, lines 999-1022). -/
def get_incident_entries (issue : JiraIssue) (incident_modified_date : Int) :
    List JiraComment × List JiraAttachment :=
  (issue.comments.filter (fun c => incident_modified_date < c.updated),
   issue.attachments.filter (fun a => incident_modified_date < a.created))

/-- `get_remote_data_command` (JiraV2.py lines 1212-1293) on its
non-exception path, given the issue fetched by `get_issue` and the parsed
`lastUpdate` argument. When the issue's `fields.updated` is strictly newer
than the last sync: a "Done" issue yields the raw response plus exactly the
closing entry; otherwise the raw response plus the new comments (as NOTE
entries) followed by the new attachments. When not strictly newer, the
mirrored object stays the empty dict with the cleared `in_mirror_error`
marker and no entries are returned. -/
def get_remote_data_command (issue : JiraIssue) (last_update : Int) :
    MirroredObject × List MirrorEntry :=
  if last_update < issue.updated then
    match handle_incoming_closing_incident issue with
    | some closed_issue =>
        ({ issueFields := some issue, in_mirror_error := "" }, [closed_issue])
    | none =>
        let entries := get_incident_entries issue last_update
        ({ issueFields := some issue, in_mirror_error := "" },
         entries.1.map (fun c => MirrorEntry.noteEntry c.body) ++
           entries.2.map (fun a => MirrorEntry.fileEntry a.filename))
  else
    ({ issueFields := none, in_mirror_error := "" }, [])

/-- Concrete issue for the C4 witness: updated at time 5, two entries that
would be new relative to time 0. -/
def issueC4 : JiraIssue :=
  { id := "4", updated := 5, statusName := "In Progress"
    comments := [⟨"a comment", 4⟩], attachments := [⟨"f.txt", 4⟩] }

/-- Concrete issue for the C5 counterexample: status "Done" but not modified
after the last sync. -/
def issueC5stale : JiraIssue :=
  { id := "7", updated := 0, statusName := "Done"
    comments := [⟨"a comment", 1⟩], attachments := [] }

/-- Concrete issue for the C5 witness: status "Done" and modified after the
last sync, with a comment and an attachment that would otherwise be new. -/
def issueC5fresh : JiraIssue :=
  { id := "8", updated := 3, statusName := "Done"
    comments := [⟨"a comment", 2⟩], attachments := [⟨"f.txt", 2⟩] }

/- ----------------------------------------------------------------- -/
/- Jira update_remote_system_command (JiraV2.py lines 1111-1156)     -/
/- ----------------------------------------------------------------- -/

/-- An XSOAR entry handed to `update_remote_system_command`: its file id, its
type tag (3 = file), its contents, and whether pushing it to Jira succeeds
(the remote's behaviour, made explicit so the exception path is
representable). -/
structure XsoarEntry where
  id : String
  type : Nat
  contents : String
  pushOk : Bool
deriving DecidableEq, Repr

/-- An HTTP push issued by the outbound-mirror path: the field edit done by
`edit_issue_command`, a file upload (`upload_file`), or a comment
(`add_comment`). -/
inductive JiraRequest where
  | editIssue (issue_id : String)
  | uploadFile (issue_id : String) (entry_id : String)
  | addComment (issue_id : String) (contents : String)
deriving DecidableEq, Repr

/-- The request sent for one entry (JiraV2.py lines 1142-1151): type 3 is
uploaded as a file, anything else is added as a comment with
`str(entry.get('contents', ''))`. -/
def entry_request (remote_id : String) (e : XsoarEntry) : JiraRequest :=
  if e.type = 3 then JiraRequest.uploadFile remote_id e.id
  else JiraRequest.addComment remote_id e.contents

/-- The entries loop of `update_remote_system_command` (lines 1141-1151)
inside the surrounding `try`: each entry's push is attempted in order; a
failing push raises, so the loop stops there (the exception propagates to the
`except` clause outside the loop). Returns the requests attempted and whether
the loop completed without an exception. -/
def push_entries (remote_id : String) : List XsoarEntry → List JiraRequest × Bool
  | [] => ([], true)
  | e :: rest =>
      if e.pushOk then
        let r := push_entries remote_id rest
        (entry_request remote_id e :: r.1, r.2)
      else
        ([entry_request remote_id e], false)

/-- The `UpdateRemoteSystemArgs` fields read by the command, plus `editOk`:
whether the field-edit push of `edit_issue_command` succeeds (again the
remote's behaviour made explicit). -/
structure UpdateRemoteSystemArgs where
  remote_incident_id : String
  incident_changed : Bool
  delta : List (String × String)
  entries : List XsoarEntry
  editOk : Bool
deriving DecidableEq, Repr

/-- `update_remote_system_command` (JiraV2.py lines 1111-1156): inside one
`try`, the field delta is pushed via `edit_issue_command` when `delta` is
non-empty and `incident_changed` is set, then each entry is pushed in order;
any raised exception is caught by the `except` clause (which only logs), and
the `finally` clause returns `remote_id` in every case. The embedding
returns the trace of issued requests together with the returned id. -/
def update_remote_system_command (args : UpdateRemoteSystemArgs) :
    List JiraRequest × String :=
  if args.delta ≠ [] ∧ args.incident_changed = true then
    if args.editOk then
      let r := push_entries args.remote_incident_id args.entries
      (JiraRequest.editIssue args.remote_incident_id :: r.1, args.remote_incident_id)
    else
      ([JiraRequest.editIssue args.remote_incident_id], args.remote_incident_id)
  else
    let r := push_entries args.remote_incident_id args.entries
    (r.1, args.remote_incident_id)

/-- Concrete invocation for the C6 counterexample: no delta, two comment
entries of which the first fails to push. -/
def argsC6 : UpdateRemoteSystemArgs :=
  { remote_incident_id := "10", incident_changed := false, delta := []
    entries := [⟨"e1", 1, "bad", false⟩, ⟨"e2", 1, "good", true⟩]
    editOk := true }

/-- Concrete invocation for the C6 amended-claim witness: a delta plus three
entries of which the second fails to push. -/
def argsC6w : UpdateRemoteSystemArgs :=
  { remote_incident_id := "11", incident_changed := true
    delta := [("summary", "s")]
    entries := [⟨"e1", 1, "first", true⟩, ⟨"e2", 3, "file", false⟩,
                ⟨"e3", 1, "third", true⟩]
    editOk := true }

/-- Concrete invocation for the C7 witness: empty delta and empty entries. -/
def argsC7 : UpdateRemoteSystemArgs :=
  { remote_incident_id := "12", incident_changed := true, delta := []
    entries := [], editOk := true }

/- ----------------------------------------------------------------- -/
/- Jira edit_status (JiraV2.py lines 701-712)                        -/
/- ----------------------------------------------------------------- -/

/-- ASCII lowercasing of one character: the behaviour of Python `str.lower`
on the ASCII transition names the code compares. -/
def char_lower (c : Char) : Char :=
  if 65 ≤ c.toNat ∧ c.toNat ≤ 90 then Char.ofNat (c.toNat + 32) else c

/-- Python `str.lower` over a string (ASCII range). -/
def str_lower (s : String) : String := String.mk (s.data.map char_lower)

/-- One element of the `transitions` array of the allowed-transitions lookup
(`list_transitions_data_for_issue`): its `name` and its `id` (the source
serialises the id with `str(...)` before posting). -/
structure JiraTransition where
  name : String
  id : String
deriving DecidableEq, Repr

/-- Outcome of `edit_status`: either the POST transition request that is
issued (carrying the matched transition's id), or the not-found error raised
with `return_error`, carrying the requested status and the list of all valid
transition names that the error message renders. -/
inductive EditStatusResult where
  | post (transition_id : String)
  | notFoundError (status : String) (valid_transitions : List String)
deriving DecidableEq, Repr

/-- `edit_status` (JiraV2.py lines 701-712) given the transitions returned by
the allowed-transitions lookup: the first transition whose lowercased name
equals the lowercased requested status gets its id posted; with no match the
command fails with the error listing every valid transition name, issuing no
POST. -/
def edit_status (transitions : List JiraTransition) (status : String) :
    EditStatusResult :=
  match transitions.find? (fun t => str_lower t.name == str_lower status) with
  | some t => EditStatusResult.post t.id
  | none => EditStatusResult.notFoundError status (transitions.map JiraTransition.name)

/-- Concrete transition list for the C8 witness. -/
def transitionsC8 : List JiraTransition :=
  [⟨"Open", "1"⟩, ⟨"In Progress", "2"⟩, ⟨"Done", "3"⟩]

/- ----------------------------------------------------------------- -/
/- Jira Client.send_request (JiraV2.py lines 50-90)                  -/
/- ----------------------------------------------------------------- -/

/-- A single-quote character, used inside one of the source's error
messages. -/
def apos : String := String.singleton (Char.ofNat 39)

/-- JiraV2.py lines 23-24. -/
def BASIC_AUTH_ERROR_MSG : String :=
  "For cloud users: As of June 2019, Basic authentication with passwords for Jira is no longer supported, please use an API Token or OAuth 1.0"

/-- Python `",".join(...)`. -/
def join_comma (l : List String) : String := String.intercalate "," l

/-- The error-JSON shape `send_request` inspects: the `errorMessages` array
and the `errors` mapping (whose values are joined). A missing key is the
empty (falsy) collection. -/
structure ErrJson where
  errorMessages : List String
  errors : List (String × String)
deriving DecidableEq, Repr

/-- An HTTP response as consumed by `send_request`: `ok`, `status_code`,
body `text`, and the result of `result.json()` — `none` when the body does
not parse as JSON (the `ValueError` branch). -/
structure HttpResult where
  ok : Bool
  status_code : Nat
  text : String
  jsonBody : Option ErrJson
deriving DecidableEq, Repr

/-- Outcome of `send_request`: the returned body on a success status, or the
failure raised through `return_error`. -/
inductive RequestOutcome where
  | success (body : String)
  | error (msg : String)
deriving DecidableEq, Repr

/-- `Client.send_request` (JiraV2.py lines 50-90): a response with a
non-success status is classified — a JSON body is mined for `errorMessages`,
then the `errors` mapping's values, then the raw text; a non-JSON body is
mapped to the Unauthorized message for 401, the could-not-connect message for
404, the file-upload message for 500 with files present, and the generic
failed-reaching-the-server message otherwise. A success status returns the
body. -/
def send_request (result : HttpResult) (files : Bool) : RequestOutcome :=
  if result.ok = true then
    RequestOutcome.success result.text
  else
    match result.jsonBody with
    | some rj =>
        if rj.errorMessages ≠ [] then
          RequestOutcome.error ("Status code: " ++ toString result.status_code ++
            "\nMessage: " ++ join_comma rj.errorMessages)
        else if rj.errors ≠ [] then
          RequestOutcome.error ("Status code: " ++ toString result.status_code ++
            "\nMessage: " ++ join_comma (rj.errors.map Prod.snd))
        else
          RequestOutcome.error ("Status code: " ++ toString result.status_code ++
            "\nError text: " ++ result.text)
    | none =>
        if result.status_code = 401 then
          RequestOutcome.error
            ("Unauthorized request, please check authentication related parameters." ++
              BASIC_AUTH_ERROR_MSG)
        else if result.status_code = 404 then
          RequestOutcome.error
            "Could not connect to the Jira server. Verify that the server URL is correct."
        else if result.status_code = 500 ∧ files = true then
          RequestOutcome.error ("Failed to execute request, status code: 500\nBody: " ++
            result.text ++ "\nMake sure file name doesn" ++ apos ++
            "t contain any special characters")
        else
          RequestOutcome.error
            ("Failed reaching the server. status code: " ++ toString result.status_code)

/-- Concrete error body for the C9 witness. -/
def errC9 : ErrJson := { errorMessages := ["boom"], errors := [] }

/-- Concrete failing response for the C9 witness. -/
def rC9 : HttpResult :=
  { ok := false, status_code := 400, text := "x", jsonBody := some errC9 }

/- ----------------------------------------------------------------- -/
/- Helper lemmas                                                     -/
/- ----------------------------------------------------------------- -/

theorem list_find_first_match {α : Type} (p : α → Bool) (t : α) (rest : List α)
    (hp : p t = true) :
    ∀ pre : List α, (∀ u ∈ pre, p u = false) →
      List.find? p (pre ++ t :: rest) = some t := by
  intro pre
  induction pre with
  | nil => intro _; simp [List.find?, hp]
  | cons a as ih =>
      intro hall
      have ha : p a = false := hall a (List.mem_cons_self a as)
      have has : ∀ u ∈ as, p u = false :=
        fun u hu => hall u (List.mem_cons_of_mem a hu)
      simp [List.find?, ha, ih has]

theorem jira_fetch_loop_offset_le (c : Nat) (ts : List JiraTicket) :
    ∀ (off : Nat) (lc : String), off ≤ (jira_fetch_loop c ts off lc).2.1 := by
  induction ts with
  | nil => intro off lc; simp [jira_fetch_loop]
  | cons t ts ih =>
      intro off lc
      simp only [jira_fetch_loop]
      split
      · exact ih off lc
      · by_cases h : off < t.id
        · simpa [h] using le_trans (le_of_lt h) (ih t.id t.created)
        · simpa [h] using ih off lc

theorem jira_fetch_loop_id_le (c : Nat) (ts : List JiraTicket) :
    ∀ (off : Nat) (lc : String), c ≤ off →
      ∀ t ∈ ts, t.id ≤ (jira_fetch_loop c ts off lc).2.1 := by
  induction ts with
  | nil => intro off lc _ t ht; cases ht
  | cons u ts ih =>
      intro off lc hco t ht
      rcases List.mem_cons.mp ht with rfl | hmem
      · simp only [jira_fetch_loop]
        split
        · rename_i hskip
          exact le_trans (le_trans hskip hco) (jira_fetch_loop_offset_le c ts off lc)
        · by_cases h : off < t.id
          · simpa [h] using jira_fetch_loop_offset_le c ts t.id t.created
          · simpa [h] using le_trans (le_of_not_lt h) (jira_fetch_loop_offset_le c ts off lc)
      · simp only [jira_fetch_loop]
        split
        · exact ih off lc hco t hmem
        · by_cases h : off < u.id
          · simpa [h] using ih u.id u.created (le_trans hco (le_of_lt h)) t hmem
          · simpa [h] using ih off lc hco t hmem

theorem jira_fetch_loop_all_skipped (c : Nat) (ts : List JiraTicket)
    (hall : ∀ t ∈ ts, t.id ≤ c) :
    ∀ (off : Nat) (lc : String), (jira_fetch_loop c ts off lc).1 = [] := by
  induction ts with
  | nil => intro off lc; simp [jira_fetch_loop]
  | cons t ts ih =>
      intro off lc
      have ht : t.id ≤ c := hall t (List.mem_cons_self t ts)
      have hts : ∀ u ∈ ts, u.id ≤ c := fun u hu => hall u (List.mem_cons_of_mem t hu)
      simp only [jira_fetch_loop, if_pos ht]
      exact ih hts off lc

theorem casb_fetch_loop_ids_superset (incs : List CasbIncident) :
    ∀ (ids : List String) (x : String), x ∈ ids → x ∈ (casb_fetch_loop incs ids).2 := by
  induction incs with
  | nil => intro ids x hx; simpa [casb_fetch_loop] using hx
  | cons inc rest ih =>
      intro ids x hx
      simp only [casb_fetch_loop]
      split
      · exact ih ids x hx
      · exact ih (inc.incidentId :: ids) x (List.mem_cons_of_mem _ hx)

theorem casb_fetch_loop_ids_cover (incs : List CasbIncident) :
    ∀ (ids : List String), ∀ i ∈ incs, i.incidentId ∈ (casb_fetch_loop incs ids).2 := by
  induction incs with
  | nil => intro ids i hi; cases hi
  | cons inc rest ih =>
      intro ids i hi
      rcases List.mem_cons.mp hi with rfl | hmem
      · simp only [casb_fetch_loop]
        split
        · rename_i hin
          exact casb_fetch_loop_ids_superset rest ids i.incidentId hin
        · exact casb_fetch_loop_ids_superset rest (i.incidentId :: ids) i.incidentId
            (List.mem_cons_self _ _)
      · simp only [casb_fetch_loop]
        split
        · exact ih ids i hmem
        · exact ih (inc.incidentId :: ids) i hmem

theorem casb_fetch_loop_all_seen (incs : List CasbIncident) :
    ∀ (ids : List String), (∀ i ∈ incs, i.incidentId ∈ ids) →
      (casb_fetch_loop incs ids).1 = [] := by
  induction incs with
  | nil => intro ids _; simp [casb_fetch_loop]
  | cons inc rest ih =>
      intro ids hall
      have hin : inc.incidentId ∈ ids := hall inc (List.mem_cons_self inc rest)
      have hrest : ∀ i ∈ rest, i.incidentId ∈ ids :=
        fun i hi => hall i (List.mem_cons_of_mem inc hi)
      simp only [casb_fetch_loop, if_pos hin]
      exact ih ids hrest

/- ----------------------------------------------------------------- -/
/- Claim theorems                                                    -/
/- ----------------------------------------------------------------- -/

/-- C1: re-running a poll with the cursor produced by the first run over the
same remote dataset yields zero new output records — every Jira issue id of
the dataset is ≤ the stored `idOffset` and is skipped, and every CASB
`incidentId` of the dataset is already in the stored seen-id set and is
skipped. -/
theorem C1_repoll_yields_no_records
    (issues : List JiraTicket) (off : Nat) (lc lc2 : String)
    (incs : List CasbIncident) (lr : CasbLastRun) (nst nst2 : String) :
    (jira_fetch_incidents ((jira_fetch_incidents off issues lc).2.idOffset)
        issues lc2).1 = [] ∧
    (casb_fetch_incidents ((casb_fetch_incidents lr incs nst).1) incs nst2).2 = [] := by
  constructor
  · have hall : ∀ t ∈ issues,
        t.id ≤ (jira_fetch_incidents off issues lc).2.idOffset := by
      intro t ht
      exact jira_fetch_loop_id_le off issues off lc (le_refl off) t ht
    exact jira_fetch_loop_all_skipped _ issues hall _ lc2
  · by_cases hincs : incs = []
    · subst hincs
      simp [casb_fetch_incidents]
    · have hall : ∀ i ∈ incs, i.incidentId ∈ (casb_fetch_loop incs lr.ids).2 :=
        fun i hi => casb_fetch_loop_ids_cover incs lr.ids i hi
      simp only [casb_fetch_incidents, if_neg hincs]
      exact casb_fetch_loop_all_seen incs _ hall

/-- C2: a Jira poll starting with cursor `id_offset = 100` over remote issues
with ids 99, 101, 105 (in that order) emits records for exactly the issues
101 and 105, in that order, and persists `idOffset = 105`. -/
theorem C2_jira_poll_scenario :
    jira_fetch_incidents 100
        [⟨99, "c99"⟩, ⟨101, "c101"⟩, ⟨105, "c105"⟩] "" =
      ([⟨101, "c101"⟩, ⟨105, "c105"⟩], ⟨105, "c105"⟩) := by
  decide

/-- C3: a CASB poll that returns incidents A and B emits and records both;
the next poll returning B and C emits only C, and afterwards both B and C are
members of the persisted seen-id set. -/
theorem C3_casb_second_poll_emits_only_new :
    (casb_fetch_incidents ⟨"t0", []⟩ [⟨"A", "t1"⟩, ⟨"B", "t2"⟩] "t2").2 =
        [casb_incident_to_xsoar ⟨"A", "t1"⟩, casb_incident_to_xsoar ⟨"B", "t2"⟩] ∧
    (casb_fetch_incidents ((casb_fetch_incidents ⟨"t0", []⟩
          [⟨"A", "t1"⟩, ⟨"B", "t2"⟩] "t2").1) [⟨"B", "t2"⟩, ⟨"C", "t3"⟩] "t3").2 =
        [casb_incident_to_xsoar ⟨"C", "t3"⟩] ∧
    "B" ∈ ((casb_fetch_incidents ((casb_fetch_incidents ⟨"t0", []⟩
          [⟨"A", "t1"⟩, ⟨"B", "t2"⟩] "t2").1) [⟨"B", "t2"⟩, ⟨"C", "t3"⟩] "t3").1).ids ∧
    "C" ∈ ((casb_fetch_incidents ((casb_fetch_incidents ⟨"t0", []⟩
          [⟨"A", "t1"⟩, ⟨"B", "t2"⟩] "t2").1) [⟨"B", "t2"⟩, ⟨"C", "t3"⟩] "t3").1).ids := by
  decide

/-- C10: the persisted cursor is monotone across a successful poll: the Jira
`idOffset` after `fetch_incidents` is ≥ the offset the poll started with, and
the CASB seen-id set after `fetch_incidents` contains every id it started
with. -/
theorem C10_cursor_monotone (off : Nat) (issues : List JiraTicket) (lc : String)
    (lr : CasbLastRun) (incs : List CasbIncident) (nst : String)
    (x : String) (hx : x ∈ lr.ids) :
    off ≤ (jira_fetch_incidents off issues lc).2.idOffset ∧
    x ∈ ((casb_fetch_incidents lr incs nst).1).ids := by
  constructor
  · exact jira_fetch_loop_offset_le off issues off lc
  · by_cases hincs : incs = []
    · subst hincs; simpa [casb_fetch_incidents] using hx
    · simp only [casb_fetch_incidents, if_neg hincs]
      exact casb_fetch_loop_ids_superset incs lr.ids x hx

/-- C10 witness: the monotonicity theorem applied at a concrete poll. -/
theorem C10_cursor_monotone_witness :
    7 ≤ (jira_fetch_incidents 7 [⟨9, "c9"⟩] "").2.idOffset ∧
    "A" ∈ ((casb_fetch_incidents ⟨"t", ["A"]⟩ [⟨"B", "t1"⟩] "t1").1).ids :=
  C10_cursor_monotone 7 [⟨9, "c9"⟩] "" ⟨"t", ["A"]⟩ [⟨"B", "t1"⟩] "t1" "A" (by decide)

theorem push_entries_stops_at_first_failure (rid : String) (e : XsoarEntry)
    (rest : List XsoarEntry) (he : e.pushOk = false) :
    ∀ pre : List XsoarEntry, (∀ x ∈ pre, x.pushOk = true) →
      push_entries rid (pre ++ e :: rest) =
        (pre.map (entry_request rid) ++ [entry_request rid e], false) := by
  intro pre
  induction pre with
  | nil => intro _; simp [push_entries, he]
  | cons p ps ih =>
      intro hall
      have hp : p.pushOk = true := hall p (List.mem_cons_self p ps)
      have hps : ∀ x ∈ ps, x.pushOk = true :=
        fun x hx => hall x (List.mem_cons_of_mem p hx)
      simp [push_entries, hp, ih hps]

/-- C4: when the remote issue's `fields.updated` timestamp is not strictly
greater than the last local sync timestamp, `get_remote_data_command` emits
no content update: the mirrored object holds no issue fields, only the
cleared `in_mirror_error` marker, and the entry list is empty. -/
theorem C4_no_update_when_not_newer (issue : JiraIssue) (last_update : Int)
    (h : ¬ last_update < issue.updated) :
    get_remote_data_command issue last_update =
      ({ issueFields := none, in_mirror_error := "" }, []) := by
  simp [get_remote_data_command, h]

/-- C4 witness: the theorem applied to an issue updated exactly at the last
sync timestamp. -/
theorem C4_no_update_witness :
    ¬ (5 : Int) < issueC4.updated ∧
    get_remote_data_command issueC4 5 =
      ({ issueFields := none, in_mirror_error := "" }, []) :=
  ⟨by decide, C4_no_update_when_not_newer issueC4 5 (by decide)⟩

/-- C5 counterexample: an issue whose status name is "Done" but whose
`fields.updated` is not strictly newer than the last sync produces an empty
entry list — no close directive at all — refuting the claim that every
"Done" issue yields exactly one close directive. -/
theorem C5_counterexample_stale_done_issue :
    issueC5stale.statusName = "Done" ∧
    (get_remote_data_command issueC5stale 0).2 = [] := by
  decide

/-- C5 (amended): for every remote issue whose status name is "Done" and
whose `fields.updated` is strictly greater than the last sync timestamp,
`get_remote_data_command` emits exactly one close directive — the entry
setting `dbotIncidentClose` with the close reason — and no other content
entries in the same cycle. -/
theorem C5_close_directive_when_done (issue : JiraIssue) (last_update : Int)
    (hdone : issue.statusName = "Done") (hnew : last_update < issue.updated) :
    (get_remote_data_command issue last_update).2 =
      [MirrorEntry.closeEntry JIRA_RESOLVE_REASON] := by
  simp [get_remote_data_command, handle_incoming_closing_incident, hdone, hnew]

/-- C5 witness: the amended theorem applied to a freshly-updated "Done"
issue that also has a new comment and a new attachment, none of which are
emitted. -/
theorem C5_close_directive_witness :
    issueC5fresh.statusName = "Done" ∧ (1 : Int) < issueC5fresh.updated ∧
    (get_remote_data_command issueC5fresh 1).2 =
      [MirrorEntry.closeEntry JIRA_RESOLVE_REASON] :=
  ⟨by decide, by decide, C5_close_directive_when_done issueC5fresh 1 rfl (by decide)⟩

/-- C6 counterexample: with two entries of which the first fails to push,
the second entry is never attempted (its request is absent from the issued
trace), refuting the claim that every entry after a failing one is still
attempted; the command does still return the remote incident id. -/
theorem C6_counterexample_batch_stops :
    (update_remote_system_command argsC6).1 = [JiraRequest.addComment "10" "bad"] ∧
    JiraRequest.addComment "10" "good" ∉ (update_remote_system_command argsC6).1 ∧
    (update_remote_system_command argsC6).2 = "10" := by
  decide

/-- C6 (amended): a failure while pushing one entry is caught (the command
still returns the remote incident id) but it aborts the rest of the batch:
the issued requests are the field edit (when delta is pushed), the pushes of
the entries before the failing one, and the failing entry's own push —
entries after the failing one are not attempted. -/
theorem C6_entry_failure_caught_but_stops_batch (args : UpdateRemoteSystemArgs)
    (pre rest : List XsoarEntry) (e : XsoarEntry)
    (hsplit : args.entries = pre ++ e :: rest)
    (hpre : ∀ x ∈ pre, x.pushOk = true) (he : e.pushOk = false)
    (hedit : args.editOk = true) :
    (update_remote_system_command args).1 =
      (if args.delta ≠ [] ∧ args.incident_changed = true then
        [JiraRequest.editIssue args.remote_incident_id] else []) ++
        pre.map (entry_request args.remote_incident_id) ++
        [entry_request args.remote_incident_id e] ∧
    (update_remote_system_command args).2 = args.remote_incident_id := by
  have hpush := push_entries_stops_at_first_failure args.remote_incident_id e rest he pre hpre
  by_cases h1 : args.delta ≠ [] ∧ args.incident_changed = true
  · constructor
    · simp [update_remote_system_command, h1, hedit, hsplit, hpush]
    · simp [update_remote_system_command, h1, hedit]
  · constructor
    · simp [update_remote_system_command, h1, hsplit, hpush]
    · simp [update_remote_system_command, h1]

/-- C6 witness: the amended theorem applied at a concrete invocation with a
pushed delta and a failing second entry. -/
theorem C6_entry_failure_witness :
    (update_remote_system_command argsC6w).1 =
      (if argsC6w.delta ≠ [] ∧ argsC6w.incident_changed = true then
        [JiraRequest.editIssue argsC6w.remote_incident_id] else []) ++
        [⟨"e1", 1, "first", true⟩].map (entry_request argsC6w.remote_incident_id) ++
        [entry_request argsC6w.remote_incident_id ⟨"e2", 3, "file", false⟩] ∧
    (update_remote_system_command argsC6w).2 = argsC6w.remote_incident_id :=
  C6_entry_failure_caught_but_stops_batch argsC6w
    [⟨"e1", 1, "first", true⟩] [⟨"e3", 1, "third", true⟩] ⟨"e2", 3, "file", false⟩
    rfl (by decide) rfl rfl

/-- C7: when the field delta is empty and the entry list is empty,
`update_remote_system_command` issues no HTTP request at all and still
returns the remote incident id. -/
theorem C7_no_request_on_empty_delta_and_entries (args : UpdateRemoteSystemArgs)
    (hdelta : args.delta = []) (hentries : args.entries = []) :
    update_remote_system_command args = ([], args.remote_incident_id) := by
  simp [update_remote_system_command, hdelta, hentries, push_entries]

/-- C7 witness: the theorem applied at a concrete invocation with empty
delta and entries. -/
theorem C7_no_request_witness :
    update_remote_system_command argsC7 = ([], argsC7.remote_incident_id) :=
  C7_no_request_on_empty_delta_and_entries argsC7 rfl rfl

/-- C8: a status-update request whose name does not case-insensitively match
any transition name fails with the not-found error listing all the valid
transition names and issues no POST transition request; a case-insensitive
match issues the POST for the matched (first matching) transition's id. -/
theorem C8_edit_status_case_insensitive_match
    (transitions : List JiraTransition) (status : String) :
    ((∀ t ∈ transitions, str_lower t.name ≠ str_lower status) →
        edit_status transitions status =
          EditStatusResult.notFoundError status (transitions.map JiraTransition.name)) ∧
    (∀ (pre rest : List JiraTransition) (t : JiraTransition),
        transitions = pre ++ t :: rest →
        (∀ u ∈ pre, str_lower u.name ≠ str_lower status) →
        str_lower t.name = str_lower status →
        edit_status transitions status = EditStatusResult.post t.id) := by
  constructor
  · intro hall
    have hnone : transitions.find? (fun t => str_lower t.name == str_lower status) = none := by
      rw [List.find?_eq_none]
      intro t ht
      simpa using hall t ht
    simp [edit_status, hnone]
  · intro pre rest t hsplit hpre hmatch
    have hp : (fun u => str_lower u.name == str_lower status) t = true := by
      simpa using hmatch
    have hpre' : ∀ u ∈ pre, (fun u => str_lower u.name == str_lower status) u = false := by
      intro u hu
      simpa using hpre u hu
    have hfind := list_find_first_match
      (fun u => str_lower u.name == str_lower status) t rest hp pre hpre'
    simp [edit_status, hsplit, hfind]

/-- C8 witness: the theorem applied to the transitions Open / In Progress /
Done, once with the unmatched request "Resolve" and once with the
case-insensitive match "done". -/
theorem C8_edit_status_witness :
    edit_status transitionsC8 "Resolve" =
      EditStatusResult.notFoundError "Resolve" ["Open", "In Progress", "Done"] ∧
    edit_status transitionsC8 "done" = EditStatusResult.post "3" :=
  ⟨(C8_edit_status_case_insensitive_match transitionsC8 "Resolve").1 (by decide),
   (C8_edit_status_case_insensitive_match transitionsC8 "done").2
     [⟨"Open", "1"⟩, ⟨"In Progress", "2"⟩] [] ⟨"Done", "3"⟩ rfl (by decide) (by decide)⟩

/-- C9: `send_request` classifies every non-success response — from a JSON
body it raises the error built from `errorMessages`, else from the `errors`
mapping's values, else from the raw text; from a non-JSON body it raises the
Unauthorized message for 401, the could-not-connect message for 404, the
file-upload message for 500 with files present, and the generic message
otherwise — while a success status returns the body unchanged. -/
theorem C9_send_request_classifies (r : HttpResult) (files : Bool) :
    (r.ok = true → send_request r files = RequestOutcome.success r.text) ∧
    (r.ok = false →
      (∀ rj, r.jsonBody = some rj →
        (rj.errorMessages ≠ [] →
          send_request r files = RequestOutcome.error
            ("Status code: " ++ toString r.status_code ++ "\nMessage: " ++
              join_comma rj.errorMessages)) ∧
        (rj.errorMessages = [] → rj.errors ≠ [] →
          send_request r files = RequestOutcome.error
            ("Status code: " ++ toString r.status_code ++ "\nMessage: " ++
              join_comma (rj.errors.map Prod.snd))) ∧
        (rj.errorMessages = [] → rj.errors = [] →
          send_request r files = RequestOutcome.error
            ("Status code: " ++ toString r.status_code ++ "\nError text: " ++ r.text))) ∧
      (r.jsonBody = none →
        (r.status_code = 401 →
          send_request r files = RequestOutcome.error
            ("Unauthorized request, please check authentication related parameters." ++
              BASIC_AUTH_ERROR_MSG)) ∧
        (r.status_code ≠ 401 → r.status_code = 404 →
          send_request r files = RequestOutcome.error
            "Could not connect to the Jira server. Verify that the server URL is correct.") ∧
        (r.status_code ≠ 401 → r.status_code ≠ 404 → r.status_code = 500 → files = true →
          send_request r files = RequestOutcome.error
            ("Failed to execute request, status code: 500\nBody: " ++ r.text ++
              "\nMake sure file name doesn" ++ apos ++ "t contain any special characters")) ∧
        (r.status_code ≠ 401 → r.status_code ≠ 404 → ¬ (r.status_code = 500 ∧ files = true) →
          send_request r files = RequestOutcome.error
            ("Failed reaching the server. status code: " ++ toString r.status_code)))) := by
  constructor
  · intro hok; simp [send_request, hok]
  · intro hok
    constructor
    · intro rj hrj
      refine ⟨?_, ?_, ?_⟩
      · intro h1; simp [send_request, hok, hrj, h1]
      · intro h1 h2; simp [send_request, hok, hrj, h1, h2]
      · intro h1 h2; simp [send_request, hok, hrj, h1, h2]
    · intro hnone
      refine ⟨?_, ?_, ?_, ?_⟩
      · intro h401; simp [send_request, hok, hnone, h401]
      · intro h401 h404; simp [send_request, hok, hnone, h401, h404]
      · intro h401 h404 h500 hf; simp [send_request, hok, hnone, h401, h404, h500, hf]
      · intro h401 h404 hng; simp [send_request, hok, hnone, h401, h404, hng]

/-- C9 witness: the classification theorem applied to a concrete failing
response whose JSON body carries an `errorMessages` array. -/
theorem C9_send_request_witness :
    rC9.ok = false ∧
    send_request rC9 false = RequestOutcome.error
      ("Status code: " ++ toString rC9.status_code ++ "\nMessage: " ++
        join_comma errC9.errorMessages) :=
  ⟨rfl, (((C9_send_request_classifies rC9 false).2 rfl).1 errC9 rfl).1 (by decide)⟩
